import Mathlib

/-!
Shallow embedding of the dual-track playback engine in
`core_gui/audio_player.py` (class `AudioPlayer`), together with proofs of
the specification's claims about it.

Float samples, volumes, positions and durations are modelled as rationals;
frame indices as integers/naturals.  Stereo frames are pairs
`(left, right) : ℚ × ℚ`.  Buffers are lists of stereo frames.
-/

namespace AudioPlayerModel

/-- `np.clip(x, -1.0, 1.0)`: constrain a sample to `[-1, 1]`. -/
def clip (x : ℚ) : ℚ := min (max x (-1)) 1

/-- A stereo sample frame: (left, right). -/
abbrev Frame := ℚ × ℚ

/-- Read frame `i` of a buffer, reading zero past the buffer's end
(the zero-initialised chunk of `_hp_callback`/`_vp_callback`: indices at or
beyond the buffer length keep the zero fill). -/
def bufRead (buf : List Frame) (i : ℕ) : Frame :=
  if h : i < buf.length then buf.get ⟨i, h⟩ else (0, 0)

/-- The zero-padded chunk of `frames` stereo samples starting at cursor
`start`, as built by the callbacks: `chunk = zeros((frames,2))`, then
`chunk[:available] = buf[start : start + available]` with
`available = min(frames, len - start)` when `start < len`. -/
def chunkAt (buf : List Frame) (start frames : ℕ) : List Frame :=
  (List.range frames).map (fun i => bufRead buf (start + i))

/-- Result of one Monitor (`_hp_callback`) invocation. -/
structure HpResult where
  out : List Frame
  cursor : ℕ
  stop : Bool
  deriving DecidableEq, Repr

/-- `AudioPlayer._hp_callback`, one invocation: with both buffers loaded,
build the zero-padded instrumental and vocal chunks at the cursor, mix
`inst*volInst + voc*volVocal`, clip to `[-1, 1]` in place, write the output,
advance the cursor by `frames`, and signal stop once the cursor was already
past both buffer lengths. -/
def hpCallback (inst voc : List Frame) (volInst volVocal : ℚ)
    (start frames : ℕ) : HpResult :=
  let instChunk := chunkAt inst start frames
  let vocChunk := chunkAt voc start frames
  let mixed := (instChunk.zip vocChunk).map (fun p =>
    (clip (p.1.1 * volInst + p.2.1 * volVocal),
     clip (p.1.2 * volInst + p.2.2 * volVocal)))
  { out := mixed
    cursor := start + frames
    stop := decide (start ≥ inst.length) && decide (start ≥ voc.length) }

/-- Result of one Broadcast (`_vp_callback`) invocation. -/
structure VpResult where
  out : List Frame
  cursor : ℕ
  stop : Bool
  deriving DecidableEq, Repr

/-- `AudioPlayer._vp_callback`, one invocation: with the instrumental buffer
loaded, if the cursor is already past the buffer end, fill the output with
silence, leave the cursor, and stop; otherwise build the zero-padded
instrumental chunk, scale by `instrumental_volume` (no clipping is applied),
write the output and advance the cursor by `frames`. -/
def vpCallback (inst : List Frame) (volInst : ℚ)
    (start frames : ℕ) : VpResult :=
  if start ≥ inst.length then
    { out := List.replicate frames (0, 0), cursor := start, stop := true }
  else
    { out := (chunkAt inst start frames).map (fun p =>
        (p.1 * volInst, p.2 * volInst))
      cursor := start + frames
      stop := false }

theorem chunkAt_length (buf : List Frame) (start frames : ℕ) :
    (chunkAt buf start frames).length = frames := by
  simp [chunkAt]

theorem chunkAt_getD (buf : List Frame) (start frames i : ℕ)
    (h : i < frames) :
    (chunkAt buf start frames).getD i (0, 0) = bufRead buf (start + i) := by
  simp [chunkAt, List.getD_eq_getElem?_getD, List.getElem?_map,
    List.getElem?_range h]

/-- C1: each output sample of one Monitor-callback invocation with cursor
`start` and frame count `frames` equals
`clip(inst[start+i]*instrumental_volume + voc[start+i]*vocal_volume, -1, 1)`
per channel, where an index past a buffer's own length reads as zero
independently per buffer (`bufRead`), and the cursor is advanced by exactly
`frames`. -/
theorem hp_callback_mix_correct
    (inst voc : List Frame) (volInst volVocal : ℚ) (start frames i : ℕ)
    (hi : i < frames) :
    (hpCallback inst voc volInst volVocal start frames).out.getD i (0, 0) =
      (clip ((bufRead inst (start + i)).1 * volInst +
             (bufRead voc (start + i)).1 * volVocal),
       clip ((bufRead inst (start + i)).2 * volInst +
             (bufRead voc (start + i)).2 * volVocal)) ∧
    (hpCallback inst voc volInst volVocal start frames).out.length = frames ∧
    (hpCallback inst voc volInst volVocal start frames).cursor =
      start + frames := by
  refine ⟨?_, ?_, rfl⟩
  · simp [hpCallback, chunkAt, List.zip_eq_zipWith, List.zipWith_map,
      List.getD_eq_getElem?_getD, List.getElem?_map, List.getElem?_zipWith,
      List.getElem?_range hi]
  · simp [hpCallback, chunkAt]

/-- C1 witness: concrete Monitor-callback invocation where the vocal buffer
is shorter than the requested range — the vocal reads zero at index 1 while
the instrumental still contributes. -/
theorem hp_callback_mix_correct_witness :
    (1 : ℕ) < 2 ∧
    ((hpCallback [((1:ℚ)/2, 1/2), (1/2, 1/2)] [((1:ℚ)/5, 1/5)] 1 (1/2)
        0 2).out.getD 1 (0, 0) =
      (clip ((bufRead [((1:ℚ)/2, 1/2), (1/2, 1/2)] (0 + 1)).1 * 1 +
             (bufRead [((1:ℚ)/5, 1/5)] (0 + 1)).1 * (1/2)),
       clip ((bufRead [((1:ℚ)/2, 1/2), (1/2, 1/2)] (0 + 1)).2 * 1 +
             (bufRead [((1:ℚ)/5, 1/5)] (0 + 1)).2 * (1/2))) ∧
     (hpCallback [((1:ℚ)/2, 1/2), (1/2, 1/2)] [((1:ℚ)/5, 1/5)] 1 (1/2)
        0 2).out.length = 2 ∧
     (hpCallback [((1:ℚ)/2, 1/2), (1/2, 1/2)] [((1:ℚ)/5, 1/5)] 1 (1/2)
        0 2).cursor = 0 + 2) :=
  ⟨by decide,
   hp_callback_mix_correct [((1:ℚ)/2, 1/2), (1/2, 1/2)] [((1:ℚ)/5, 1/5)]
     1 (1/2) 0 2 1 (by decide)⟩

/-- C2 counterexample: with a single instrumental frame of value `1.0` and
`instrumental_volume = 1.5` (the top of the claimed `[0.0, 1.5]` range),
the Broadcast callback outputs `1.5`, whereas the claim requires the
clipped value `clip(1.0 * 1.5) = 1.0` — the Broadcast callback applies no
clipping. -/
theorem vp_callback_clip_counterexample :
    (vpCallback [((1:ℚ), 1)] (3/2) 0 1).out.getD 0 (0, 0) = (3/2, 3/2) ∧
    clip ((1:ℚ) * (3/2)) = 1 ∧ (3/2 : ℚ) ≠ 1 := by
  refine ⟨?_, ?_, by norm_num⟩
  · simp [vpCallback, chunkAt, bufRead, List.range_succ]
  · simp [clip]
    norm_num

/-- C2 amended: every Broadcast-callback output sample equals
`inst[start+i] * instrumental_volume` with no clipping applied (an index
past the instrumental buffer's length reads as zero), the vocal buffer
never contributes (the callback does not read it at all), and the cursor
advances by `frames`; when the cursor starts at or past the instrumental
buffer's end the output is pure silence and the stream stops. -/
theorem vp_callback_scales_instrumental_only
    (inst : List Frame) (volInst : ℚ) (start frames i : ℕ)
    (hi : i < frames) (hstart : start < inst.length) :
    (vpCallback inst volInst start frames).out.getD i (0, 0) =
      ((bufRead inst (start + i)).1 * volInst,
       (bufRead inst (start + i)).2 * volInst) ∧
    (vpCallback inst volInst start frames).out.length = frames ∧
    (vpCallback inst volInst start frames).cursor = start + frames ∧
    (vpCallback inst volInst start frames).stop = false := by
  have hns : ¬ start ≥ inst.length := by omega
  refine ⟨?_, ?_, ?_, ?_⟩
  · simp [vpCallback, hns, chunkAt, List.getD_eq_getElem?_getD,
      List.getElem?_map, List.getElem?_range hi]
  · simp [vpCallback, hns, chunkAt]
  · simp [vpCallback, hns]
  · simp [vpCallback, hns]

/-- C2 amended witness: concrete Broadcast-callback invocation at volume
`1.5` on a one-frame buffer. -/
theorem vp_callback_scales_instrumental_only_witness :
    ((0 : ℕ) < 1 ∧ (0 : ℕ) < ([((1:ℚ), 1)] : List Frame).length) ∧
    ((vpCallback [((1:ℚ), 1)] (3/2) 0 1).out.getD 0 (0, 0) =
      ((bufRead [((1:ℚ), 1)] (0 + 0)).1 * (3/2),
       (bufRead [((1:ℚ), 1)] (0 + 0)).2 * (3/2)) ∧
     (vpCallback [((1:ℚ), 1)] (3/2) 0 1).out.length = 1 ∧
     (vpCallback [((1:ℚ), 1)] (3/2) 0 1).cursor = 0 + 1 ∧
     (vpCallback [((1:ℚ), 1)] (3/2) 0 1).stop = false) :=
  ⟨⟨by decide, by decide⟩,
   vp_callback_scales_instrumental_only [((1:ℚ), 1)] (3/2) 0 1 0
     (by decide) (by decide)⟩

/-! ## Engine state

The mutable fields of `AudioPlayer.__init__` relevant to the claims, with
stream handles modelled as booleans (handle present / absent) and device
identifiers as optional naturals. -/

/-- Python `int(q)` on a rational: truncation toward zero. -/
def pyInt (q : ℚ) : ℤ := q.num.tdiv q.den

theorem pyInt_eq_floor (q : ℚ) (h : 0 ≤ q) : pyInt q = ⌊q⌋ := by
  have hfl : ⌊q⌋ = q.num / (q.den : ℤ) := by
    conv_lhs => rw [← Rat.num_div_den q]
    exact_mod_cast Rat.floor_intCast_div_natCast q.num q.den
  rw [pyInt, hfl, Int.tdiv_eq_ediv (Rat.num_nonneg.mpr h) (by positivity)]

theorem pyInt_intCast (n : ℤ) : pyInt ((n : ℤ) : ℚ) = n := by
  simp [pyInt, Rat.num_intCast, Rat.den_intCast, Int.tdiv_one]

/-- Events written to the host window (`window.write_event_value`). -/
inductive Event
  | loadDone (ok : Bool) (msg : String)
  | playbackError (msg : String)
  | playbackEnded
  deriving DecidableEq, Repr

/-- The engine's mutable state (`AudioPlayer` instance fields). -/
structure EngineState where
  audioLoaded : Bool
  instrumentalAudioData : Option (List Frame)
  vocalAudioData : Option (List Frame)
  sampleRate : ℚ
  duration : ℚ
  position : ℚ
  headphoneDeviceId : Option ℕ
  virtualDeviceId : Option ℕ
  headphoneStream : Bool
  virtualStream : Bool
  playing : Bool
  hpFrame : ℤ
  vpFrame : ℤ
  instrumentalVolume : ℚ
  vocalVolume : ℚ
  lastError : String
  pendingSeekAbsolute : Option ℚ
  pendingSeekDelta : ℚ
  timerArmed : Bool
  deriving DecidableEq, Repr

/-- `AudioPlayer.__init__`: the initial field values. -/
def initState : EngineState where
  audioLoaded := false
  instrumentalAudioData := none
  vocalAudioData := none
  sampleRate := 44100
  duration := 0
  position := 0
  headphoneDeviceId := none
  virtualDeviceId := none
  headphoneStream := false
  virtualStream := false
  playing := false
  hpFrame := 0
  vpFrame := 0
  instrumentalVolume := 7/10
  vocalVolume := 1
  lastError := ""
  pendingSeekAbsolute := none
  pendingSeekDelta := 0
  timerArmed := false

/-- `AudioPlayer._close_streams`: stop/close both streams (each guarded by
exception swallowing, so the operation is total), clear both handles and the
playing flag.  The position field is not touched. -/
def closeStreams (st : EngineState) : EngineState :=
  { st with headphoneStream := false, virtualStream := false, playing := false }

/-- The outcome of attempting to open each hardware output stream:
`none` means `sd.OutputStream(...)` + `.start()` succeed, `some e` means
they raise with message `e`. -/
structure DeviceEnv where
  hpError : Option String
  vpError : Option String
  deriving DecidableEq, Repr

/-- The condition under which `_open_streams` attempts the virtual stream:
`self.virtual_device_id is not None and self.virtual_device_id != self.headphone_device_id`. -/
def vpAttempted (st : EngineState) : Bool :=
  st.virtualDeviceId.isSome && st.virtualDeviceId != st.headphoneDeviceId

/-- `self.last_error += f"\n\x7berror_msg\x7d" if self.last_error else error_msg`. -/
def appendError (cur msg : String) : String :=
  if cur = "" then msg else cur ++ "\n" ++ msg

/-- `AudioPlayer._open_streams(start_frame_index)`: clear `last_error`, set
both frame cursors to the start frame (under the stream lock, before either
stream starts), then try to open the headphone stream and — when a distinct
virtual device is configured — the virtual stream, accumulating per-stream
errors into `last_error`; returns `False` if no stream started, otherwise
sets the playing flag and returns `True`. -/
def openStreams (st : EngineState) (env : DeviceEnv) (startFrame : ℤ) :
    Bool × EngineState :=
  let st0 : EngineState :=
    { st with lastError := "", hpFrame := startFrame, vpFrame := startFrame }
  let st1 : EngineState :=
    match env.hpError with
    | none => { st0 with headphoneStream := true }
    | some e => { st0 with lastError := "耳機: " ++ e }
  let st2 : EngineState :=
    if vpAttempted st then
      match env.vpError with
      | none => { st1 with virtualStream := true }
      | some e => { st1 with lastError := appendError st1.lastError ("虛擬: " ++ e) }
    else st1
  let startedAny := env.hpError.isNone || (vpAttempted st && env.vpError.isNone)
  if startedAny then (true, { st2 with playing := true }) else (false, st2)

/-- `AudioPlayer.play_pause`: no-op when no audio is loaded; stops (async)
when playing; otherwise opens the streams at the frame for the current
position, and on total open failure clears the playing flag and emits
`-PLAYBACK_ERROR-` with the accumulated `last_error`. -/
def playPause (st : EngineState) (env : DeviceEnv) : EngineState × List Event :=
  if !st.audioLoaded then (st, [])
  else if st.playing then (closeStreams st, [])
  else
    let frameIndex := pyInt (st.position * st.sampleRate)
    let r := openStreams st env frameIndex
    if r.1 then (r.2, [])
    else ({ r.2 with playing := false }, [Event.playbackError r.2.lastError])

/-- The reopen frame computed by `_restart_at_position_background`:
`frame_index = int(seconds * self.sample_rate)` (truncation toward zero). -/
def restartFrame (seconds sampleRate : ℚ) : ℤ := pyInt (seconds * sampleRate)

/-- `AudioPlayer._restart_at_position_background(seconds)`: under the restart
lock, close the streams, compute the reopen frame, reopen there; on success
set the host-visible position to `frame / sample_rate`, on failure clear the
playing flag and emit `-PLAYBACK_ERROR-`. -/
def restartAtPositionBackground (st : EngineState) (env : DeviceEnv)
    (seconds : ℚ) : EngineState × List Event :=
  let st1 := closeStreams st
  let frameIndex := restartFrame seconds st.sampleRate
  let r := openStreams st1 env frameIndex
  if r.1 then
    ({ r.2 with position := (frameIndex : ℚ) / r.2.sampleRate }, [])
  else
    ({ r.2 with playing := false }, [Event.playbackError r.2.lastError])

/-- `AudioPlayer.seek(seconds)`: no-op when no audio is loaded; clamp to
`[0, duration]`; while paused apply immediately to position and both
cursors; while playing set the pending absolute target, clear the
accumulated relative delta, and (re)arm the debounce timer. -/
def seek (st : EngineState) (seconds : ℚ) : EngineState :=
  if !st.audioLoaded then st
  else
    let s := max 0 (min seconds st.duration)
    if !st.playing then
      let frame := pyInt (s * st.sampleRate)
      { st with position := s, hpFrame := frame, vpFrame := frame }
    else
      { st with pendingSeekAbsolute := some s, pendingSeekDelta := 0,
                timerArmed := true }

/-- `AudioPlayer._adjust_pending_seek_delta(delta_seconds)`: no-op when no
audio is loaded; while paused apply the delta to the position immediately
(clamped) and update both cursors; while playing convert any pending
absolute target into a relative baseline `base - position`, accumulate the
delta, and (re)arm the debounce timer. -/
def adjustPendingSeekDelta (st : EngineState) (delta : ℚ) : EngineState :=
  if !st.audioLoaded then st
  else if !st.playing then
    let newPos := max 0 (min (st.position + delta) st.duration)
    let frame := pyInt (newPos * st.sampleRate)
    { st with position := newPos, hpFrame := frame, vpFrame := frame }
  else
    let st1 :=
      match st.pendingSeekAbsolute with
      | some base =>
          { st with pendingSeekAbsolute := none,
                    pendingSeekDelta := base - st.position }
      | none => st
    { st1 with pendingSeekDelta := st1.pendingSeekDelta + delta,
               timerArmed := true }

/-- `AudioPlayer.rewind_5sec`. -/
def rewind5sec (st : EngineState) : EngineState := adjustPendingSeekDelta st (-5)

/-- `AudioPlayer.forward_5sec`. -/
def forward5sec (st : EngineState) : EngineState := adjustPendingSeekDelta st 5

/-- The target computed by `_perform_pending_seek` from the captured pending
values: a pending absolute target is used as-is, otherwise the live Monitor
cursor position plus the accumulated delta; the result is clamped to
`[0, duration]`. -/
def seekTargetOf (st : EngineState) : ℚ :=
  match st.pendingSeekAbsolute with
  | some a => max 0 (min a st.duration)
  | none =>
      let curPos := (st.hpFrame : ℚ) / st.sampleRate
      max 0 (min (curPos + st.pendingSeekDelta) st.duration)

/-- `AudioPlayer._perform_pending_seek`: under the seek lock capture and
clear the pending state and the timer reference, then compute the clamped
target and dispatch a background restart at it.  Returns the cleared state
and the dispatched target. -/
def performPendingSeek (st : EngineState) : EngineState × ℚ :=
  ({ st with pendingSeekAbsolute := none, pendingSeekDelta := 0,
             timerArmed := false },
   seekTargetOf st)

/-- The outcome of the fallible part of `_load_worker` (file reads, decode,
normalization, pitch shift): either an exception with its message, or the
two processed stereo buffers. -/
inductive LoadResult
  | failure (msg : String)
  | success (instData vocData : List Frame)
  deriving DecidableEq, Repr

/-- `AudioPlayer._load_worker`: the first statement of its `try` block
assigns `self.sample_rate = sample_rate`; on any exception the handler only
emits `-LOAD_DONE-` with the error message; on success the buffers,
duration, position and cursors are replaced under the stream lock and
`-LOAD_DONE-` is emitted with `True`. -/
def loadWorker (st : EngineState) (sampleRate : ℚ) (res : LoadResult) :
    EngineState × List Event :=
  let st0 : EngineState := { st with sampleRate := sampleRate }
  match res with
  | .failure msg => (st0, [Event.loadDone false msg])
  | .success instData vocData =>
      ({ st0 with
          instrumentalAudioData := some instData
          vocalAudioData := some vocData
          duration := (instData.length : ℚ) / sampleRate
          position := 0
          hpFrame := 0
          vpFrame := 0
          audioLoaded := true }, [Event.loadDone true ""])

/-! ## Helper lemmas and concrete states -/

theorem pyInt_natCast (n : ℕ) : pyInt ((n : ℕ) : ℚ) = (n : ℤ) := by
  simp [pyInt, Rat.num_natCast, Int.tdiv_one]

/-- Fields of `_open_streams`' resulting state that no branch modifies,
plus the cursor initialization to the start frame. -/
theorem openStreams_fields (st : EngineState) (env : DeviceEnv) (f : ℤ) :
    (openStreams st env f).2.hpFrame = f ∧
    (openStreams st env f).2.vpFrame = f ∧
    (openStreams st env f).2.sampleRate = st.sampleRate ∧
    (openStreams st env f).2.position = st.position ∧
    (openStreams st env f).2.duration = st.duration ∧
    (openStreams st env f).2.pendingSeekAbsolute = st.pendingSeekAbsolute ∧
    (openStreams st env f).2.pendingSeekDelta = st.pendingSeekDelta := by
  unfold openStreams
  cases h1 : env.hpError <;> cases h2 : env.vpError <;>
    by_cases h : vpAttempted st <;> simp [h]

/-- When the headphone stream opens, `_open_streams` succeeds. -/
theorem openStreams_success (st : EngineState) (env : DeviceEnv) (f : ℤ)
    (henv : env.hpError = none) : (openStreams st env f).1 = true := by
  unfold openStreams
  simp [henv]

/-- A state with both buffers loaded (2 s of stereo audio at 44100 Hz),
paused. -/
def loadedState : EngineState :=
  { initState with
      audioLoaded := true
      instrumentalAudioData := some (List.replicate 88200 ((1:ℚ)/2, 1/2))
      vocalAudioData := some (List.replicate 88200 ((1:ℚ)/5, 1/5))
      duration := 2 }

/-- The loaded state, playing. -/
def playingState : EngineState :=
  { loadedState with playing := true, headphoneStream := true }

/-! ## C9, C10, C8, C6 -/

/-- C9: `_close_streams` is total and idempotent: called in any state it
clears both stream handles and the playing flag, leaves the host-visible
position unchanged (stop does not reset position to 0), and calling it
again afterward changes nothing. -/
theorem close_streams_idempotent (st : EngineState) :
    (closeStreams st).headphoneStream = false ∧
    (closeStreams st).virtualStream = false ∧
    (closeStreams st).playing = false ∧
    (closeStreams st).position = st.position ∧
    closeStreams (closeStreams st) = closeStreams st := by
  simp [closeStreams]

/-- C10: when no audio is loaded, `play_pause`, `seek`,
`_adjust_pending_seek_delta` and hence `rewind_5sec`/`forward_5sec` return
immediately: the state is unchanged and no event is emitted. -/
theorem controls_noop_when_not_loaded (st : EngineState) (env : DeviceEnv)
    (s d : ℚ) (h : st.audioLoaded = false) :
    playPause st env = (st, []) ∧
    seek st s = st ∧
    adjustPendingSeekDelta st d = st ∧
    rewind5sec st = st ∧
    forward5sec st = st := by
  simp [playPause, seek, adjustPendingSeekDelta, rewind5sec, forward5sec, h]

/-- C10 witness: the freshly initialised player has no audio loaded and all
control operations leave it untouched. -/
theorem controls_noop_when_not_loaded_witness :
    initState.audioLoaded = false ∧
    (playPause initState ⟨none, none⟩ = (initState, []) ∧
     seek initState 3 = initState ∧
     adjustPendingSeekDelta initState 5 = initState ∧
     rewind5sec initState = initState ∧
     forward5sec initState = initState) :=
  ⟨rfl, controls_noop_when_not_loaded initState ⟨none, none⟩ 3 5 rfl⟩

/-- C8 amended: when a load fails, the previously loaded buffers, duration,
position and loaded flag remain exactly as they were and only a `LoadDone`
error event is emitted, but the engine's sample rate has already been
overwritten with the requested rate (the first statement of the load
worker's `try` block), so it does not survive a failed load. -/
theorem load_failure_state (st : EngineState) (sr : ℚ) (msg : String) :
    (loadWorker st sr (.failure msg)).1.instrumentalAudioData =
      st.instrumentalAudioData ∧
    (loadWorker st sr (.failure msg)).1.vocalAudioData = st.vocalAudioData ∧
    (loadWorker st sr (.failure msg)).1.duration = st.duration ∧
    (loadWorker st sr (.failure msg)).1.position = st.position ∧
    (loadWorker st sr (.failure msg)).1.audioLoaded = st.audioLoaded ∧
    (loadWorker st sr (.failure msg)).1.sampleRate = sr ∧
    (loadWorker st sr (.failure msg)).2 = [Event.loadDone false msg] := by
  simp [loadWorker]

/-- C8 counterexample: a failed load at a requested rate of 48000 on a state
previously loaded at 44100 leaves the engine's sample rate mutated to 48000
— contradicting the claim that no engine state mutation occurs. -/
theorem load_failure_mutates_sample_rate :
    (loadWorker loadedState 48000 (.failure "伴奏檔案不存在")).1.sampleRate = 48000 ∧
    loadedState.sampleRate = 44100 ∧
    (48000 : ℚ) ≠ 44100 := by
  refine ⟨rfl, rfl, by norm_num⟩

/-- The loaded state at a 10 Hz sample rate (used to exhibit the restart
frame computation on a non-integer product). -/
def rate10State : EngineState :=
  { loadedState with sampleRate := 10, duration := 1 }

/-- C6 counterexample: at target 0.57 s with sample rate 10, the restart
procedure computes frame `int(5.7) = 5` (truncation toward zero), not
`round(5.7) = 6` as the claim requires; the restarted state's Monitor
cursor is 5. -/
theorem restart_frame_not_rounded :
    restartFrame (57/100) 10 = 5 ∧
    (restartAtPositionBackground rate10State ⟨none, none⟩ (57/100)).1.hpFrame = 5 ∧
    round ((57/100 : ℚ) * 10) = 6 ∧
    (5 : ℤ) ≠ 6 := by
  have hq : (57/100 : ℚ) * 10 = 57/10 := by norm_num
  have hfr : restartFrame (57/100) 10 = 5 := by
    rw [restartFrame, hq, pyInt_eq_floor _ (by norm_num), Int.floor_eq_iff]
    norm_num
  refine ⟨hfr, ?_, ?_, by norm_num⟩
  · have h := (openStreams_fields (closeStreams rate10State) ⟨none, none⟩
      (restartFrame (57/100) rate10State.sampleRate)).1
    have hok := openStreams_success (closeStreams rate10State) ⟨none, none⟩
      (restartFrame (57/100) rate10State.sampleRate) rfl
    simp only [restartAtPositionBackground, hok, if_true]
    rw [h]
    exact hfr
  · rw [hq, round_eq, Int.floor_eq_iff]
    norm_num

/-- C6 amended: for every nonnegative target, the restart procedure computes
the reopen frame by truncating `target * sample_rate` toward zero — equal to
`⌊target * sample_rate⌋` — reopens both cursors at that frame, and sets the
host-visible position to `frame / sample_rate`. -/
theorem restart_truncates_frame (st : EngineState) (env : DeviceEnv)
    (target : ℚ) (h0 : 0 ≤ target) (hsr : 0 ≤ st.sampleRate)
    (henv : env.hpError = none) :
    restartFrame target st.sampleRate = ⌊target * st.sampleRate⌋ ∧
    (restartAtPositionBackground st env target).1.hpFrame =
      ⌊target * st.sampleRate⌋ ∧
    (restartAtPositionBackground st env target).1.vpFrame =
      ⌊target * st.sampleRate⌋ ∧
    (restartAtPositionBackground st env target).1.position =
      (⌊target * st.sampleRate⌋ : ℚ) / st.sampleRate := by
  have hfr : restartFrame target st.sampleRate = ⌊target * st.sampleRate⌋ :=
    pyInt_eq_floor _ (mul_nonneg h0 hsr)
  have hflds := openStreams_fields (closeStreams st) env
    (restartFrame target st.sampleRate)
  have hok := openStreams_success (closeStreams st) env
    (restartFrame target st.sampleRate) henv
  have hcs : (closeStreams st).sampleRate = st.sampleRate := rfl
  refine ⟨hfr, ?_, ?_, ?_⟩ <;>
    simp only [restartAtPositionBackground, hok, if_true]
  · rw [hflds.1, hfr]
  · rw [hflds.2.1, hfr]
  · rw [hflds.2.2.1, hcs, hfr]

/-- C6 amended witness: restart at 0.57 s on the 10 Hz state reopens at
frame `⌊5.7⌋ = 5` and publishes position `5/10`. -/
theorem restart_truncates_frame_witness :
    ((0 : ℚ) ≤ 57/100 ∧ (0 : ℚ) ≤ rate10State.sampleRate ∧
      (⟨none, none⟩ : DeviceEnv).hpError = none) ∧
    (restartFrame (57/100) rate10State.sampleRate =
      ⌊(57/100 : ℚ) * rate10State.sampleRate⌋ ∧
     (restartAtPositionBackground rate10State ⟨none, none⟩ (57/100)).1.hpFrame =
      ⌊(57/100 : ℚ) * rate10State.sampleRate⌋ ∧
     (restartAtPositionBackground rate10State ⟨none, none⟩ (57/100)).1.vpFrame =
      ⌊(57/100 : ℚ) * rate10State.sampleRate⌋ ∧
     (restartAtPositionBackground rate10State ⟨none, none⟩ (57/100)).1.position =
      (⌊(57/100 : ℚ) * rate10State.sampleRate⌋ : ℚ) / rate10State.sampleRate) :=
  ⟨⟨by norm_num, by norm_num [rate10State, loadedState, initState], rfl⟩,
   restart_truncates_frame rate10State ⟨none, none⟩ (57/100) (by norm_num)
     (by norm_num [rate10State, loadedState, initState]) rfl⟩

/-! ## C7, C4 -/

theorem hp_error_ne_empty (e : String) : ("耳機: " ++ e) ≠ "" := by
  intro h
  have h2 := congrArg String.data h
  simp [String.data_append] at h2

/-- When both attempted streams fail, `_open_streams` returns failure with
both device errors concatenated into `last_error`. -/
theorem openStreams_both_fail (st : EngineState) (env : DeviceEnv) (f : ℤ)
    (e1 e2 : String) (h1 : env.hpError = some e1)
    (hvp : vpAttempted st = true) (h2 : env.vpError = some e2) :
    (openStreams st env f).1 = false ∧
    (openStreams st env f).2.lastError =
      "耳機: " ++ e1 ++ "\n" ++ ("虛擬: " ++ e2) := by
  unfold openStreams
  simp [h1, hvp, h2, appendError, hp_error_ne_empty e1]

/-- C7: `_open_streams` initialises both frame cursors to the start frame
(they equal it in the resulting state for every device outcome, and are set
before either stream is started); if at least the headphone stream opens the
call succeeds, a failing virtual stream being recorded as an accumulated
warning in `last_error`; if both attempted streams fail the call fails with
both device errors concatenated, and then `play_pause`'s starter clears the
playing flag and emits `-PLAYBACK_ERROR-` with the concatenated error. -/
theorem open_streams_contract (st : EngineState) (env : DeviceEnv)
    (f : ℤ) (e1 e2 : String) :
    ((openStreams st env f).2.hpFrame = f ∧
     (openStreams st env f).2.vpFrame = f) ∧
    (env.hpError = none → (openStreams st env f).1 = true) ∧
    (env.hpError = none → vpAttempted st = true → env.vpError = some e2 →
      (openStreams st env f).1 = true ∧
      (openStreams st env f).2.lastError = "虛擬: " ++ e2) ∧
    (env.hpError = some e1 → vpAttempted st = true → env.vpError = none →
      (openStreams st env f).1 = true ∧
      (openStreams st env f).2.lastError = "耳機: " ++ e1) ∧
    (env.hpError = some e1 → vpAttempted st = true → env.vpError = some e2 →
      (openStreams st env f).1 = false ∧
      (openStreams st env f).2.lastError =
        "耳機: " ++ e1 ++ "\n" ++ ("虛擬: " ++ e2)) ∧
    (st.audioLoaded = true → st.playing = false →
      env.hpError = some e1 → vpAttempted st = true → env.vpError = some e2 →
      (playPause st env).1.playing = false ∧
      (playPause st env).2 =
        [Event.playbackError ("耳機: " ++ e1 ++ "\n" ++ ("虛擬: " ++ e2))]) := by
  refine ⟨⟨(openStreams_fields st env f).1, (openStreams_fields st env f).2.1⟩,
    fun h => openStreams_success st env f h, ?_, ?_, ?_, ?_⟩
  · intro h1 hvp h2
    refine ⟨openStreams_success st env f h1, ?_⟩
    unfold openStreams
    simp [h1, hvp, h2, appendError]
  · intro h1 hvp h2
    unfold openStreams
    simp [h1, hvp, h2]
  · intro h1 hvp h2
    exact openStreams_both_fail st env f e1 e2 h1 hvp h2
  · intro hl hp h1 hvp h2
    have hob := openStreams_both_fail st env
      (pyInt (st.position * st.sampleRate)) e1 e2 h1 hvp h2
    simp [playPause, hl, hp, hob.1, hob.2]

/-- A loaded, paused state with distinct headphone and virtual devices
configured, so both hardware streams are attempted on open. -/
def dualDeviceState : EngineState :=
  { loadedState with headphoneDeviceId := some 3, virtualDeviceId := some 7 }

/-- C7 witness: with both devices failing (`ErrA`, `ErrB`) the open fails
with the concatenated error and `play_pause` emits it while clearing the
playing flag; with only the virtual device failing the open still
succeeds and records the warning. -/
theorem open_streams_contract_witness :
    (((openStreams dualDeviceState ⟨some "ErrA", some "ErrB"⟩ 0).2.hpFrame = 0 ∧
      (openStreams dualDeviceState ⟨some "ErrA", some "ErrB"⟩ 0).2.vpFrame = 0) ∧
     ((openStreams dualDeviceState ⟨some "ErrA", some "ErrB"⟩ 0).1 = false ∧
      (openStreams dualDeviceState ⟨some "ErrA", some "ErrB"⟩ 0).2.lastError =
        "耳機: " ++ "ErrA" ++ "\n" ++ ("虛擬: " ++ "ErrB")) ∧
     ((playPause dualDeviceState ⟨some "ErrA", some "ErrB"⟩).1.playing = false ∧
      (playPause dualDeviceState ⟨some "ErrA", some "ErrB"⟩).2 =
        [Event.playbackError ("耳機: " ++ "ErrA" ++ "\n" ++ ("虛擬: " ++ "ErrB"))])) ∧
    ((openStreams dualDeviceState ⟨none, some "ErrB"⟩ 0).1 = true ∧
     (openStreams dualDeviceState ⟨none, some "ErrB"⟩ 0).2.lastError =
       "虛擬: " ++ "ErrB") ∧
    ((openStreams dualDeviceState ⟨some "ErrA", none⟩ 0).1 = true ∧
     (openStreams dualDeviceState ⟨some "ErrA", none⟩ 0).2.lastError =
       "耳機: " ++ "ErrA") := by
  have h := open_streams_contract dualDeviceState ⟨some "ErrA", some "ErrB"⟩
    0 "ErrA" "ErrB"
  have h2 := open_streams_contract dualDeviceState ⟨none, some "ErrB"⟩
    0 "ErrA" "ErrB"
  have h3 := open_streams_contract dualDeviceState ⟨some "ErrA", none⟩
    0 "ErrA" "ErrB"
  exact ⟨⟨h.1, h.2.2.2.2.1 rfl (by decide) rfl,
          h.2.2.2.2.2 rfl rfl rfl (by decide) rfl⟩,
         h2.2.2.1 rfl (by decide) rfl,
         h3.2.2.2.1 rfl (by decide) rfl⟩

/-- Fields of a successful restart: position is published as
`frame / sample_rate` and both cursors are the reopen frame. -/
theorem restart_success_fields (st : EngineState) (env : DeviceEnv) (t : ℚ)
    (henv : env.hpError = none) :
    (restartAtPositionBackground st env t).1.position =
      ((restartFrame t st.sampleRate : ℤ) : ℚ) / st.sampleRate ∧
    (restartAtPositionBackground st env t).1.hpFrame =
      restartFrame t st.sampleRate ∧
    (restartAtPositionBackground st env t).1.vpFrame =
      restartFrame t st.sampleRate := by
  have hflds := openStreams_fields (closeStreams st) env
    (restartFrame t st.sampleRate)
  have hok := openStreams_success (closeStreams st) env
    (restartFrame t st.sampleRate) henv
  refine ⟨?_, ?_, ?_⟩ <;> simp only [restartAtPositionBackground, hok, if_true]
  · rw [hflds.2.2.1]; rfl
  · exact hflds.1
  · exact hflds.2.1

theorem pyInt_zero : pyInt 0 = 0 := by
  simp [pyInt]

/-- C4: an out-of-range seek target is never an error — it is silently
clamped to `[0, duration]` in both the paused path (applied immediately) and
the playing path (applied when the debounce expiry dispatches the restart):
for `seconds > duration` the final position equals `duration`, and for
`seconds < 0` it equals `0`. -/
theorem seek_out_of_range_clamped (st : EngineState) (env : DeviceEnv)
    (seconds : ℚ) (L : ℕ) (hl : st.audioLoaded = true)
    (hsr : 0 < st.sampleRate) (hdur : st.duration = (L : ℚ) / st.sampleRate)
    (henv : env.hpError = none) :
    (st.playing = false → st.duration < seconds →
      (seek st seconds).position = st.duration) ∧
    (st.playing = false → seconds < 0 → (seek st seconds).position = 0) ∧
    (st.playing = true → st.duration < seconds →
      (restartAtPositionBackground (performPendingSeek (seek st seconds)).1
         env (performPendingSeek (seek st seconds)).2).1.position =
        st.duration) ∧
    (st.playing = true → seconds < 0 →
      (restartAtPositionBackground (performPendingSeek (seek st seconds)).1
         env (performPendingSeek (seek st seconds)).2).1.position = 0) := by
  have hdur0 : 0 ≤ st.duration := by rw [hdur]; positivity
  refine ⟨?_, ?_, ?_, ?_⟩
  · intro hp hgt
    simp [seek, hl, hp, min_eq_right hgt.le, max_eq_right hdur0]
  · intro hp hlt
    have hsec : seconds ≤ st.duration := hlt.le.trans hdur0
    simp [seek, hl, hp, min_eq_left hsec, max_eq_left hlt.le]
  · intro hp hgt
    have hseek : seek st seconds =
        { st with
            pendingSeekAbsolute := some (max 0 (min seconds st.duration)),
            pendingSeekDelta := 0, timerArmed := true } := by
      simp [seek, hl, hp]
    have hclamp : max 0 (min seconds st.duration) = st.duration := by
      rw [min_eq_right hgt.le, max_eq_right hdur0]
    have htgt : (performPendingSeek (seek st seconds)).2 = st.duration := by
      rw [hseek]
      simp [performPendingSeek, seekTargetOf, hclamp, min_self,
        max_eq_right hdur0]
    have hst1 : (performPendingSeek (seek st seconds)).1.sampleRate =
        st.sampleRate := by rw [hseek]; rfl
    rw [(restart_success_fields _ env _ henv).1, hst1, htgt, hdur]
    have hmul : ((L : ℚ) / st.sampleRate) * st.sampleRate = (L : ℚ) :=
      div_mul_cancel₀ _ (ne_of_gt hsr)
    rw [restartFrame, hmul, pyInt_natCast]
    push_cast
    ring
  · intro hp hlt
    have hsec : seconds ≤ st.duration := hlt.le.trans hdur0
    have hseek : seek st seconds =
        { st with
            pendingSeekAbsolute := some (max 0 (min seconds st.duration)),
            pendingSeekDelta := 0, timerArmed := true } := by
      simp [seek, hl, hp]
    have hclamp : max 0 (min seconds st.duration) = 0 := by
      rw [min_eq_left hsec, max_eq_left hlt.le]
    have htgt : (performPendingSeek (seek st seconds)).2 = 0 := by
      rw [hseek]
      simp [performPendingSeek, seekTargetOf, hclamp, min_eq_left hdur0]
    have hst1 : (performPendingSeek (seek st seconds)).1.sampleRate =
        st.sampleRate := by rw [hseek]; rfl
    rw [(restart_success_fields _ env _ henv).1, hst1, htgt]
    rw [restartFrame, zero_mul, pyInt_zero]
    simp

/-- C4 witness: on the 2 s loaded state, seeking to 99 s lands on 2 s and
seeking to −3 s lands on 0 s, in both the paused and the playing path. -/
theorem seek_out_of_range_clamped_witness :
    (seek loadedState 99).position = loadedState.duration ∧
    (seek loadedState (-3)).position = 0 ∧
    (restartAtPositionBackground (performPendingSeek (seek playingState 99)).1
       ⟨none, none⟩ (performPendingSeek (seek playingState 99)).2).1.position =
      playingState.duration ∧
    (restartAtPositionBackground
       (performPendingSeek (seek playingState (-3))).1
       ⟨none, none⟩
       (performPendingSeek (seek playingState (-3))).2).1.position = 0 := by
  have hd : loadedState.duration = ((88200 : ℕ) : ℚ) / loadedState.sampleRate := by
    norm_num [loadedState, initState]
  have hd' : playingState.duration = ((88200 : ℕ) : ℚ) / playingState.sampleRate := by
    norm_num [playingState, loadedState, initState]
  have h1 := seek_out_of_range_clamped loadedState ⟨none, none⟩ 99 88200 rfl
    (by norm_num [loadedState, initState]) hd rfl
  have h2 := seek_out_of_range_clamped loadedState ⟨none, none⟩ (-3) 88200 rfl
    (by norm_num [loadedState, initState]) hd rfl
  have h3 := seek_out_of_range_clamped playingState ⟨none, none⟩ 99 88200 rfl
    (by norm_num [playingState, loadedState, initState]) hd' rfl
  have h4 := seek_out_of_range_clamped playingState ⟨none, none⟩ (-3) 88200 rfl
    (by norm_num [playingState, loadedState, initState]) hd' rfl
  exact ⟨h1.1 rfl (by norm_num [loadedState, initState]),
         h2.2.1 rfl (by norm_num),
         h3.2.2.1 rfl (by norm_num [playingState, loadedState, initState]),
         h4.2.2.2 rfl (by norm_num)⟩

/-! ## C3: debounce accumulation of rapid relative seeks -/

/-- Seek-related requests reaching the coordinator, plus the expiry of the
armed debounce timer (which is the only dispatcher of restarts). -/
inductive SeekOp
  | forward5
  | rewind5
  | seekAbs (s : ℚ)
  | timerExpire
  deriving DecidableEq, Repr

/-- One coordinator step, returning the restart targets it dispatches: a
request while the window is open only re-arms the timer; the expiry of an
armed timer performs the pending seek, dispatching exactly one restart. -/
def stepSeek (st : EngineState) (op : SeekOp) : EngineState × List ℚ :=
  match op with
  | .forward5 => (forward5sec st, [])
  | .rewind5 => (rewind5sec st, [])
  | .seekAbs s => (seek st s, [])
  | .timerExpire =>
      if st.timerArmed then
        let p := performPendingSeek st
        (p.1, [p.2])
      else (st, [])

/-- Run a sequence of coordinator steps, collecting dispatched restarts. -/
def runSeekOps (st : EngineState) : List SeekOp → EngineState × List ℚ
  | [] => (st, [])
  | op :: ops =>
      let p := stepSeek st op
      let q := runSeekOps p.1 ops
      (q.1, p.2 ++ q.2)

/-- C3: three rapid `forward(5)` calls while playing, all inside one
debounce window (no expiry between them), produce exactly one restart
dispatch, whose target equals
`min(duration, original_position + 15)` — the deltas sum to +15 instead of
causing three restarts. -/
theorem three_forwards_one_restart (st : EngineState)
    (hl : st.audioLoaded = true) (hp : st.playing = true)
    (habs : st.pendingSeekAbsolute = none) (hdelta : st.pendingSeekDelta = 0)
    (hpos : 0 ≤ (st.hpFrame : ℚ) / st.sampleRate)
    (hdur : 0 ≤ st.duration) :
    (runSeekOps st [.forward5, .forward5, .forward5, .timerExpire]).2 =
      [min st.duration ((st.hpFrame : ℚ) / st.sampleRate + 15)] := by
  have s1e : stepSeek st .forward5 =
      ({ st with pendingSeekDelta := 5, timerArmed := true }, []) := by
    simp [stepSeek, forward5sec, adjustPendingSeekDelta, hl, hp, habs, hdelta]
  have s2e : stepSeek { st with pendingSeekDelta := 5, timerArmed := true }
      .forward5 =
      ({ st with pendingSeekDelta := 10, timerArmed := true }, []) := by
    simp [stepSeek, forward5sec, adjustPendingSeekDelta, hl, hp, habs]
    norm_num
  have s3e : stepSeek { st with pendingSeekDelta := 10, timerArmed := true }
      .forward5 =
      ({ st with pendingSeekDelta := 15, timerArmed := true }, []) := by
    simp [stepSeek, forward5sec, adjustPendingSeekDelta, hl, hp, habs]
    norm_num
  have s4e : stepSeek { st with pendingSeekDelta := 15, timerArmed := true }
      .timerExpire =
      ({ st with pendingSeekAbsolute := none, pendingSeekDelta := 0,
                 timerArmed := false },
       [max 0 (min ((st.hpFrame : ℚ) / st.sampleRate + 15) st.duration)]) := by
    simp [stepSeek, performPendingSeek, seekTargetOf, habs]
  have hrun : (runSeekOps st [.forward5, .forward5, .forward5, .timerExpire]).2 =
      [max 0 (min ((st.hpFrame : ℚ) / st.sampleRate + 15) st.duration)] := by
    simp [runSeekOps, s1e, s2e, s3e, s4e]
  rw [hrun]
  have h15 : 0 ≤ (st.hpFrame : ℚ) / st.sampleRate + 15 :=
    add_nonneg hpos (by norm_num)
  rw [max_eq_right (le_min h15 hdur), min_comm]

/-- A playing state at 4 Hz with the Monitor cursor at frame 8, i.e. at
position 2 s into a 10 s track. -/
def seekTestState : EngineState :=
  { playingState with
      sampleRate := 4, duration := 10, position := 2, hpFrame := 8,
      vpFrame := 8 }

/-- C3 witness: on the concrete playing state at position 2 s of a 10 s
track, three rapid +5 s presses dispatch exactly one restart at
`min(10, 2 + 15) = 10`. -/
theorem three_forwards_one_restart_witness :
    (seekTestState.audioLoaded = true ∧ seekTestState.playing = true ∧
     seekTestState.pendingSeekAbsolute = none ∧
     seekTestState.pendingSeekDelta = 0 ∧
     (0 : ℚ) ≤ (seekTestState.hpFrame : ℚ) / seekTestState.sampleRate ∧
     (0 : ℚ) ≤ seekTestState.duration) ∧
    (runSeekOps seekTestState
        [.forward5, .forward5, .forward5, .timerExpire]).2 =
      [min seekTestState.duration
        ((seekTestState.hpFrame : ℚ) / seekTestState.sampleRate + 15)] :=
  ⟨⟨rfl, rfl, rfl, rfl,
    by norm_num [seekTestState, playingState, loadedState, initState],
    by norm_num [seekTestState, playingState, loadedState, initState]⟩,
   three_forwards_one_restart seekTestState rfl rfl rfl rfl
     (by norm_num [seekTestState, playingState, loadedState, initState])
     (by norm_num [seekTestState, playingState, loadedState, initState])⟩

/-! ## C5: mutual exclusion of the pending-seek modes -/

/-- Every engine operation that touches state, as reachable steps for the
mutual-exclusion invariant. -/
inductive PlayerOp
  | loadOp (sampleRate : ℚ) (res : LoadResult)
  | playPauseOp (env : DeviceEnv)
  | seekOp (s : ℚ)
  | adjustOp (d : ℚ)
  | forwardOp
  | rewindOp
  | timerExpireOp (env : DeviceEnv)
  | closeOp

/-- One engine operation, with the debounce-timer expiry performing the
pending seek and its background restart. -/
def applyOp (st : EngineState) (op : PlayerOp) : EngineState :=
  match op with
  | .loadOp sr res => (loadWorker st sr res).1
  | .playPauseOp env => (playPause st env).1
  | .seekOp s => seek st s
  | .adjustOp d => adjustPendingSeekDelta st d
  | .forwardOp => forward5sec st
  | .rewindOp => rewind5sec st
  | .timerExpireOp env =>
      if st.timerArmed then
        let p := performPendingSeek st
        (restartAtPositionBackground p.1 env p.2).1
      else st
  | .closeOp => closeStreams st

/-- The mutual-exclusion invariant: a pending absolute target and a nonzero
accumulated relative delta are never both set. -/
def seekExclusive (st : EngineState) : Prop :=
  st.pendingSeekAbsolute = none ∨ st.pendingSeekDelta = 0

theorem seekExclusive_of_eq (st st' : EngineState)
    (ha : st'.pendingSeekAbsolute = st.pendingSeekAbsolute)
    (hd : st'.pendingSeekDelta = st.pendingSeekDelta)
    (h : seekExclusive st) : seekExclusive st' := by
  rw [seekExclusive, ha, hd]; exact h

theorem playPause_pending (st : EngineState) (env : DeviceEnv) :
    (playPause st env).1.pendingSeekAbsolute = st.pendingSeekAbsolute ∧
    (playPause st env).1.pendingSeekDelta = st.pendingSeekDelta := by
  have hof := openStreams_fields st env (pyInt (st.position * st.sampleRate))
  cases h1 : st.audioLoaded
  · simp [playPause, h1]
  · cases h2 : st.playing
    · cases h3 : (openStreams st env (pyInt (st.position * st.sampleRate))).1 <;>
        simp [playPause, h1, h2, h3, hof.2.2.2.2.2.1, hof.2.2.2.2.2.2]
    · simp [playPause, h1, h2, closeStreams]

theorem restart_pending (st : EngineState) (env : DeviceEnv) (t : ℚ) :
    (restartAtPositionBackground st env t).1.pendingSeekAbsolute =
      st.pendingSeekAbsolute ∧
    (restartAtPositionBackground st env t).1.pendingSeekDelta =
      st.pendingSeekDelta := by
  have hofa : (openStreams (closeStreams st) env
      (restartFrame t st.sampleRate)).2.pendingSeekAbsolute =
      st.pendingSeekAbsolute :=
    (openStreams_fields (closeStreams st) env
      (restartFrame t st.sampleRate)).2.2.2.2.2.1
  have hofd : (openStreams (closeStreams st) env
      (restartFrame t st.sampleRate)).2.pendingSeekDelta =
      st.pendingSeekDelta :=
    (openStreams_fields (closeStreams st) env
      (restartFrame t st.sampleRate)).2.2.2.2.2.2
  cases h3 : (openStreams (closeStreams st) env (restartFrame t st.sampleRate)).1 <;>
    simp [restartAtPositionBackground, h3, hofa, hofd]

theorem adjust_seekExclusive (st : EngineState) (d : ℚ)
    (h : seekExclusive st) :
    seekExclusive (adjustPendingSeekDelta st d) := by
  cases h1 : st.audioLoaded
  · exact seekExclusive_of_eq st _ (by simp [adjustPendingSeekDelta, h1])
      (by simp [adjustPendingSeekDelta, h1]) h
  · cases h2 : st.playing
    · exact seekExclusive_of_eq st _
        (by simp [adjustPendingSeekDelta, h1, h2])
        (by simp [adjustPendingSeekDelta, h1, h2]) h
    · left
      cases h3 : st.pendingSeekAbsolute <;>
        simp [adjustPendingSeekDelta, h1, h2, h3]

theorem seekExclusive_preserved (st : EngineState) (op : PlayerOp)
    (h : seekExclusive st) : seekExclusive (applyOp st op) := by
  cases op with
  | loadOp sr res =>
      cases res with
      | failure msg => exact seekExclusive_of_eq st _ rfl rfl h
      | success a b => exact seekExclusive_of_eq st _ rfl rfl h
  | playPauseOp env =>
      exact seekExclusive_of_eq st _ (playPause_pending st env).1
        (playPause_pending st env).2 h
  | seekOp s =>
      cases h1 : st.audioLoaded
      · exact seekExclusive_of_eq st _ (by simp [applyOp, seek, h1])
          (by simp [applyOp, seek, h1]) h
      · cases h2 : st.playing
        · exact seekExclusive_of_eq st _ (by simp [applyOp, seek, h1, h2])
            (by simp [applyOp, seek, h1, h2]) h
        · right
          simp [applyOp, seek, h1, h2]
  | adjustOp d => exact adjust_seekExclusive st d h
  | forwardOp => exact adjust_seekExclusive st 5 h
  | rewindOp => exact adjust_seekExclusive st (-5) h
  | timerExpireOp env =>
      cases h1 : st.timerArmed
      · simpa [applyOp, h1] using h
      · simp only [applyOp, h1, if_true]
        left
        rw [(restart_pending (performPendingSeek st).1 env
          (performPendingSeek st).2).1]
        rfl
  | closeOp => exact seekExclusive_of_eq st _ rfl rfl h

theorem seekExclusive_reachable (ops : List PlayerOp) :
    seekExclusive (List.foldl applyOp initState ops) := by
  suffices h : ∀ st, seekExclusive st →
      seekExclusive (List.foldl applyOp st ops) from h initState (Or.inl rfl)
  induction ops with
  | nil => exact fun st h => h
  | cons op ops ih => exact fun st h => ih _ (seekExclusive_preserved st op h)

/-- C5: in every state reachable from the initial state the pending-seek
modes are mutually exclusive (an absolute target and a nonzero accumulated
delta are never both set), every single operation preserves the exclusion;
moreover an absolute seek while playing sets the absolute target and clears
the accumulated delta, and a relative seek while playing with a pending
absolute target `b` first converts it to the relative baseline
`b − current_known_position` and clears the absolute target before
accumulating. -/
theorem pending_seek_mutual_exclusion (ops : List PlayerOp)
    (st : EngineState) (op : PlayerOp) (s d b : ℚ)
    (hinv : seekExclusive st) :
    seekExclusive (applyOp st op) ∧
    seekExclusive (List.foldl applyOp initState ops) ∧
    (st.audioLoaded = true → st.playing = true →
      (seek st s).pendingSeekAbsolute = some (max 0 (min s st.duration)) ∧
      (seek st s).pendingSeekDelta = 0) ∧
    (st.audioLoaded = true → st.playing = true →
      st.pendingSeekAbsolute = some b →
      (adjustPendingSeekDelta st d).pendingSeekAbsolute = none ∧
      (adjustPendingSeekDelta st d).pendingSeekDelta =
        (b - st.position) + d) := by
  refine ⟨seekExclusive_preserved st op hinv, seekExclusive_reachable ops,
    ?_, ?_⟩
  · intro hl hp
    constructor <;> simp [seek, hl, hp]
  · intro hl hp hb
    constructor <;> simp [adjustPendingSeekDelta, hl, hp, hb]

/-- The playing state with a pending absolute seek to 1 s. -/
def pendingAbsState : EngineState :=
  { playingState with pendingSeekAbsolute := some 1 }

/-- C5 witness: concrete checks on a playing state with a pending absolute
target of 1 s (and delta 0, so the invariant holds on entry). -/
theorem pending_seek_mutual_exclusion_witness :
    pendingAbsState.pendingSeekDelta = 0 ∧
    (seekExclusive (applyOp pendingAbsState (.seekOp 1)) ∧
     seekExclusive (List.foldl applyOp initState [.seekOp 1, .forwardOp]) ∧
     ((seek pendingAbsState 1).pendingSeekAbsolute =
        some (max 0 (min 1 pendingAbsState.duration)) ∧
      (seek pendingAbsState 1).pendingSeekDelta = 0) ∧
     ((adjustPendingSeekDelta pendingAbsState 5).pendingSeekAbsolute = none ∧
      (adjustPendingSeekDelta pendingAbsState 5).pendingSeekDelta =
        (1 - pendingAbsState.position) + 5)) := by
  have h := pending_seek_mutual_exclusion [.seekOp 1, .forwardOp]
    pendingAbsState (.seekOp 1) 1 5 1 (Or.inr rfl)
  exact ⟨rfl, h.1, h.2.1, h.2.2.1 rfl rfl, h.2.2.2 rfl rfl rfl⟩

end AudioPlayerModel
